import Mathlib

/-!
Verification development for the autotag-paddle pipeline.

The development shallowly embeds the two Python modules of the repository,
`src/main.py` (CLI dispatch) and `src/autotag.py` (the tagging orchestrator
`AutotagUsingPaddleXRecognition`), together with the components that the
design document describes but whose source modules (`template_json.py`,
`ai.py`, `page_renderer.py`) are not part of this snapshot; those are
modelled from the specification text and are marked as such.
-/

namespace Autotag

/-! ### UTF-8 model for `_json_to_raw_data`

Python's `str.encode("utf-8")` produces one to four bytes per code point,
while `len(json_str)` counts code points.  We model a Python `str` as a
`List Char` and UTF-8 encoding explicitly. -/

/-- Number of bytes UTF-8 uses for one code point. -/
def charUtf8Size (c : Char) : Nat :=
  if c.toNat < 0x80 then 1
  else if c.toNat < 0x800 then 2
  else if c.toNat < 0x10000 then 3
  else 4

/-- The UTF-8 bytes of one code point. -/
def charUtf8Bytes (c : Char) : List Nat :=
  let n := c.toNat
  if n < 0x80 then [n]
  else if n < 0x800 then [0xC0 + n / 0x40, 0x80 + n % 0x40]
  else if n < 0x10000 then [0xE0 + n / 0x1000, 0x80 + n / 0x40 % 0x40, 0x80 + n % 0x40]
  else [0xF0 + n / 0x40000, 0x80 + n / 0x1000 % 0x40, 0x80 + n / 0x40 % 0x40, 0x80 + n % 0x40]

/-- UTF-8 encoding of a string (the value of `json_str.encode("utf-8")`). -/
def utf8Encode (s : List Char) : List Nat :=
  (s.map charUtf8Bytes).flatten

/-- Embedding of `AutotagUsingPaddleXRecognition._json_to_raw_data` applied to the
already-dumped JSON string: the returned buffer is built over the UTF-8 bytes but
its size is `len(json_str)`, the number of code points, so the buffer exposes only
the first `len(json_str)` bytes of the encoding. -/
def json_to_raw_data (jsonStr : List Char) : List Nat × Nat :=
  let json_data := utf8Encode jsonStr
  let json_data_size := jsonStr.length
  (json_data.take json_data_size, json_data_size)

theorem charUtf8Bytes_length (c : Char) : (charUtf8Bytes c).length = charUtf8Size c := by
  unfold charUtf8Bytes charUtf8Size
  repeat' split <;> try simp_all
  all_goals omega

theorem one_le_charUtf8Size (c : Char) : 1 ≤ charUtf8Size c := by
  unfold charUtf8Size
  repeat' split <;> simp_all

theorem charUtf8Size_eq_one (c : Char) (h : c.toNat < 0x80) : charUtf8Size c = 1 := by
  unfold charUtf8Size
  simp [h]

theorem two_le_charUtf8Size (c : Char) (h : 0x80 ≤ c.toNat) : 2 ≤ charUtf8Size c := by
  unfold charUtf8Size
  have hno : ¬ c.toNat < 0x80 := by omega
  simp only [hno, if_false]
  repeat' split <;> simp_all

theorem length_le_utf8Encode (s : List Char) : s.length ≤ (utf8Encode s).length := by
  induction s with
  | nil => simp [utf8Encode]
  | cons c t ih =>
    have h1 := one_le_charUtf8Size c
    have h2 := charUtf8Bytes_length c
    simp only [utf8Encode, List.map_cons, List.flatten_cons, List.length_append, List.length_cons]
    simp only [utf8Encode] at ih
    omega

theorem utf8Encode_length_ascii (s : List Char) (h : ∀ c ∈ s, c.toNat < 0x80) :
    (utf8Encode s).length = s.length := by
  induction s with
  | nil => simp [utf8Encode]
  | cons c t ih =>
    have h1 := charUtf8Size_eq_one c (h c (by simp))
    have h2 := charUtf8Bytes_length c
    have h3 := ih (fun x hx => h x (by simp [hx]))
    simp only [utf8Encode, List.map_cons, List.flatten_cons, List.length_append, List.length_cons]
    simp only [utf8Encode] at h3
    omega

theorem length_lt_utf8Encode (s : List Char) (h : ∃ c ∈ s, 0x80 ≤ c.toNat) :
    s.length < (utf8Encode s).length := by
  induction s with
  | nil => simp at h
  | cons c t ih =>
    obtain ⟨x, hx, hxge⟩ := h
    have h2 := charUtf8Bytes_length c
    have hle := length_le_utf8Encode t
    simp only [utf8Encode, List.map_cons, List.flatten_cons, List.length_append, List.length_cons]
    simp only [utf8Encode] at ih hle ⊢
    rcases List.mem_cons.mp hx with rfl | hxt
    · have := two_le_charUtf8Size x hxge
      omega
    · have h1 := one_le_charUtf8Size c
      have := ih ⟨x, hxt, hxge⟩
      omega

/-- C10: `_json_to_raw_data` reports the character length of the JSON string as the
buffer size.  For a pure-ASCII serialization that equals the UTF-8 byte length and
the buffer carries the complete encoding; as soon as one multi-byte character
appears, the returned buffer is strictly shorter than the encoded data. -/
theorem json_to_raw_data_size_spec (s : List Char) :
    (json_to_raw_data s).2 = s.length ∧
    ((∀ c ∈ s, c.toNat < 0x80) → (json_to_raw_data s).1 = utf8Encode s) ∧
    ((∃ c ∈ s, 0x80 ≤ c.toNat) →
      (json_to_raw_data s).1.length < (utf8Encode s).length) := by
  refine ⟨rfl, ?_, ?_⟩
  · intro h
    have hlen := utf8Encode_length_ascii s h
    simp [json_to_raw_data, List.take_of_length_le, hlen.le]
  · intro h
    have hlt := length_lt_utf8Encode s h
    simp only [json_to_raw_data, List.length_take]
    omega

/-- Witness for C10 at two concrete strings: the ASCII string "ab" round-trips whole,
while a two-byte character yields a buffer strictly shorter than its encoding. -/
theorem json_to_raw_data_size_spec_witness :
    (json_to_raw_data ['a', 'b']).1 = utf8Encode ['a', 'b'] ∧
    (json_to_raw_data ['λ']).1.length < (utf8Encode ['λ']).length :=
  ⟨(json_to_raw_data_size_spec ['a', 'b']).2.1 (by decide),
   (json_to_raw_data_size_spec ['λ']).2.2 ⟨'λ', by decide, by decide⟩⟩

/-! ### CLI model (`src/main.py`)

The module body of `main.py` first resolves its imports.  Line 7 reads
`from autotag import autotag_pdf, autotag_folder`; a Python from-import binds a
name only if the source module defines (or itself imports) it, and raises
`ImportError` otherwise, before any code in `main` can run.  We model the set of
names the `autotag` module binds at top level and the dispatch logic of `main`. -/

/-- Top-level names bound in `src/autotag.py`: its imports and its sole class. -/
def autotagModuleNames : List String :=
  ["ctypes", "json", "os", "Path", "GetPdfix", "Pdfix", "PdfPage", "PdfTagsParams",
   "kDataFormatJson", "kRotate0", "kSaveFull", "tqdm", "PaddleXEngine",
   "PdfixActivationException", "PdfixAuthorizationException", "PdfixException",
   "create_image_from_pdf_page", "TemplateJsonCreator", "AutotagUsingPaddleXRecognition"]

/-- The names `main.py` line 7 asks the `autotag` module for. -/
def mainAutotagImports : List String :=
  ["autotag_pdf", "autotag_folder"]

/-- A from-import succeeds iff every requested name is bound in the source module. -/
def importSucceeds : Bool :=
  mainAutotagImports.all (fun n => autotagModuleNames.contains n)

/-- Result of one CLI invocation of the `tag` path inside `main`:
process exit code plus the printed message, if any. -/
structure ExitRes where
  code : Nat
  message : Option String
deriving DecidableEq

/-- Outcome of running the `main.py` module: either the import at line 7 raises
before `main` is entered, or `main` runs and produces an exit result. -/
inductive RunOutcome where
  | importError : RunOutcome
  | mainRan (res : ExitRes) : RunOutcome
deriving DecidableEq

/-- Python `input_file.lower().endswith(".pdf")`, over a `str` modelled as its
list of code points. -/
def lowerEndsWithPdf (s : List Char) : Bool :=
  ['.', 'p', 'd', 'f'].isSuffixOf (s.map Char.toLower)

/-- Embedding of the `tag` branch of `main` (main.py lines 72-96), with the calls to
the (undefined) `autotag_pdf` / `autotag_folder` abstracted as oracles that either
return or raise.  `sys.exit(string)` prints the string and exits with code 1;
falling off the end of `main` exits with code 0. -/
def mainTagDispatch (input output : List Char) (inputIsDir : Bool)
    (tagPdfResult tagFolderResult : Except String Unit) : ExitRes :=
  if lowerEndsWithPdf input && lowerEndsWithPdf output then
    match tagPdfResult with
    | Except.ok _ => { code := 0, message := none }
    | Except.error e => { code := 1, message := some ("Failed to run Paddle " ++ e) }
  else if inputIsDir then
    match tagFolderResult with
    | Except.ok _ => { code := 0, message := none }
    | Except.error e => { code := 1, message := some ("Failed to run Paddle " ++ e) }
  else
    { code := 0, message := some "Input and output file must be PDF" }

/-- Running the `main.py` module on a `tag` invocation: imports resolve first. -/
def runMainModule (input output : List Char) (inputIsDir : Bool)
    (tagPdfResult tagFolderResult : Except String Unit) : RunOutcome :=
  if importSucceeds then
    RunOutcome.mainRan (mainTagDispatch input output inputIsDir tagPdfResult tagFolderResult)
  else
    RunOutcome.importError

/-- C8: the names `autotag_pdf` and `autotag_folder` are not bound by the `autotag`
module, so the from-import in `main.py` fails and every `tag` CLI invocation ends in
an import error before any document processing begins. -/
theorem tag_cli_import_always_fails :
    autotagModuleNames.contains "autotag_pdf" = false ∧
    autotagModuleNames.contains "autotag_folder" = false ∧
    importSucceeds = false ∧
    ∀ (input output : List Char) (d : Bool) (rp rf : Except String Unit),
      runMainModule input output d rp rf = RunOutcome.importError := by
  refine ⟨by decide, by decide, by decide, ?_⟩
  intro input output d rp rf
  simp [runMainModule, show importSucceeds = false by decide]

/-- Concrete paths used in the CLI theorems below. -/
def inPdfPath : List Char :=
  ['i', 'n', '.', 'p', 'd', 'f']

/-- Concrete output path `out.pdf`. -/
def outPdfPath : List Char :=
  ['o', 'u', 't', '.', 'p', 'd', 'f']

/-- Concrete non-PDF input path `file.txt`. -/
def fileTxtPath : List Char :=
  ['f', 'i', 'l', 'e', '.', 't', 'x', 't']

/-- C5 counterexample: a `tag` invocation whose input path is not a PDF (and not a
directory) is a failure per the spec, yet `main` merely prints
"Input and output file must be PDF" and falls through, exiting with code 0. -/
theorem cli_nonpdf_exit_zero_counterexample :
    mainTagDispatch fileTxtPath outPdfPath false (Except.ok ()) (Except.ok ()) =
      { code := 0, message := some "Input and output file must be PDF" } := by
  decide

/-- C5 amended: within `main` (taking the line-7 imports as resolved), a `tag` run
exits 0 on success and exits 1 with a printed message when the tagging call raises
(missing input files surface as such an exception since the existence check is
commented out); but when the paths are not both `.pdf` and the input is not a
directory, `main` prints a message and still exits 0. -/
theorem cli_exit_code_amended (input output : List Char) (d : Bool)
    (rp rf : Except String Unit) :
    ((lowerEndsWithPdf input && lowerEndsWithPdf output) = true →
      (rp = Except.ok () →
        mainTagDispatch input output d rp rf = { code := 0, message := none }) ∧
      (∀ e, rp = Except.error e →
        mainTagDispatch input output d rp rf =
          { code := 1, message := some ("Failed to run Paddle " ++ e) })) ∧
    ((lowerEndsWithPdf input && lowerEndsWithPdf output) = false → d = false →
      mainTagDispatch input output d rp rf =
        { code := 0, message := some "Input and output file must be PDF" }) ∧
    ((lowerEndsWithPdf input && lowerEndsWithPdf output) = false → d = true →
      ∀ e, rf = Except.error e →
        mainTagDispatch input output d rp rf =
          { code := 1, message := some ("Failed to run Paddle " ++ e) }) := by
  refine ⟨fun hpdf => ⟨fun hok => ?_, fun e herr => ?_⟩, fun hpdf hd => ?_, fun hpdf hd e herr => ?_⟩
  · simp [mainTagDispatch, hpdf, hok]
  · simp [mainTagDispatch, hpdf, herr]
  · simp [mainTagDispatch, hpdf, hd]
  · simp [mainTagDispatch, hpdf, hd, herr]

/-- Witness for the amended C5 at concrete inputs: a successful PDF-to-PDF run exits
0, a raising run exits 1 with the message, and a non-PDF input exits 0. -/
theorem cli_exit_code_amended_witness :
    mainTagDispatch inPdfPath outPdfPath false (Except.ok ()) (Except.ok ()) =
      { code := 0, message := none } ∧
    mainTagDispatch inPdfPath outPdfPath false (Except.error "boom") (Except.ok ()) =
      { code := 1, message := some "Failed to run Paddle boom" } ∧
    mainTagDispatch fileTxtPath outPdfPath false (Except.ok ()) (Except.ok ()) =
      { code := 0, message := some "Input and output file must be PDF" } :=
  ⟨((cli_exit_code_amended inPdfPath outPdfPath false (Except.ok ()) (Except.ok ())).1
      (by decide)).1 rfl,
   ((cli_exit_code_amended inPdfPath outPdfPath false (Except.error "boom")
      (Except.ok ())).1 (by decide)).2 "boom" rfl,
   (cli_exit_code_amended fileTxtPath outPdfPath false (Except.ok ())
      (Except.ok ())).2.1 (by decide) rfl⟩

/-! ### Orchestrator model (`process_file` and `_process_pdf_file_page`)

We embed the control flow of `AutotagUsingPaddleXRecognition.process_file` as a
trace-producing interpreter.  The external SDK and detector calls are abstracted
by an environment of per-page success flags; the interpreter returns the list of
externally visible events in order, plus a success flag (`false` means the Python
function raised). -/

/-- Externally visible events of one `process_file` run. -/
inductive Ev where
  | acquirePage (i : Nat) : Ev
  | releasePage (i : Nat) : Ev
  | acquirePageView (i : Nat) : Ev
  | releasePageView (i : Nat) : Ev
  | buildPage (pageNumber : Nat) : Ev
  | writeTemplateFile : Ev
  | savePdf : Ev
deriving DecidableEq

/-- Abstraction of the external calls made during one run: which per-page steps
succeed, and whether the document-level steps succeed. -/
structure Env where
  numPages : Nat
  acquirePageOk : Nat → Bool
  renderOk : Nat → Bool
  detectOk : Nat → Bool
  buildOk : Nat → Bool
  loadTemplateOk : Bool
  addTagsOk : Bool
  saveOk : Bool

/-- Embedding of `_process_pdf_file_page` for page index `i`: acquire the page
view, then inside `try` render the page, run the detector, and append the page
template with `page_number = page_index + 1`; the `finally` releases the page view
on every exit path.  Returns the event trace and whether the call returned
normally. -/
def processPdfFilePage (env : Env) (i : Nat) : List Ev × Bool :=
  if env.renderOk i = false then
    ([Ev.acquirePageView i, Ev.releasePageView i], false)
  else if env.detectOk i = false then
    ([Ev.acquirePageView i, Ev.releasePageView i], false)
  else if env.buildOk i = false then
    ([Ev.acquirePageView i, Ev.releasePageView i], false)
  else
    ([Ev.acquirePageView i, Ev.buildPage (i + 1), Ev.releasePageView i], true)

/-- All per-page steps of page `i` succeed. -/
def pageOk (env : Env) (i : Nat) : Bool :=
  env.acquirePageOk i && env.renderOk i && env.detectOk i && env.buildOk i

/-- Embedding of the page loop of `process_file` over a list of page indices:
`doc.AcquirePage` (raising without a release when it returns `None`), the guarded
call to `_process_pdf_file_page`, and the `finally` that releases the page handle;
a failing page stops the loop and propagates. -/
def runPages (env : Env) : List Nat → List Ev × Bool
  | [] => ([], true)
  | i :: rest =>
    if env.acquirePageOk i = false then
      ([], false)
    else
      let inner := processPdfFilePage env i
      let evs := Ev.acquirePage i :: (inner.1 ++ [Ev.releasePage i])
      if inner.2 = false then
        (evs, false)
      else
        let tail := runPages env rest
        (evs ++ tail.1, tail.2)

/-- Embedding of `process_file`: run the page loop over indices `0..numPages-1`;
only if every page succeeded, build the document template dict and write the
template JSON file, then load the template into the document, add tags, and save
the output PDF; any failure raises and skips the remaining steps. -/
def processFile (env : Env) : List Ev × Bool :=
  let loop := runPages env (List.range env.numPages)
  if loop.2 = false then
    (loop.1, false)
  else
    let tr := loop.1 ++ [Ev.writeTemplateFile]
    if env.loadTemplateOk = false then (tr, false)
    else if env.addTagsOk = false then (tr, false)
    else if env.saveOk = false then (tr, false)
    else (tr ++ [Ev.savePdf], true)

/-- The inner page routine emits only page-view and build events. -/
theorem processPdfFilePage_events (env : Env) (i : Nat) :
    ∀ e ∈ (processPdfFilePage env i).1, e ≠ Ev.writeTemplateFile ∧ e ≠ Ev.savePdf := by
  intro e he
  unfold processPdfFilePage at he
  (repeat' split at he) <;> fin_cases he <;> simp

/-- The page loop emits only page-scoped events. -/
theorem runPages_events (env : Env) (l : List Nat) :
    ∀ e ∈ (runPages env l).1, e ≠ Ev.writeTemplateFile ∧ e ≠ Ev.savePdf := by
  induction l with
  | nil => simp [runPages]
  | cons i rest ih =>
    intro e he
    simp only [runPages] at he
    split at he
    · simp at he
    · split at he
      · simp only [List.mem_cons, List.mem_append, List.mem_singleton,
          List.not_mem_nil, or_false] at he
        rcases he with rfl | he | rfl
        · simp
        · exact processPdfFilePage_events env i e he
        · simp
      · simp only [List.cons_append, List.mem_cons, List.mem_append, List.mem_singleton,
          List.not_mem_nil, or_false] at he
        rcases he with rfl | (he | rfl) | he
        · simp
        · exact processPdfFilePage_events env i e he
        · simp
        · exact ih e he

/-- One unfolding step of the success flag of the page loop. -/
theorem runPages_ok_cons (env : Env) (i : Nat) (rest : List Nat) :
    (runPages env (i :: rest)).2 = (pageOk env i && (runPages env rest).2) := by
  simp only [runPages]
  unfold processPdfFilePage pageOk
  by_cases ha : env.acquirePageOk i = false <;>
    by_cases hr : env.renderOk i = false <;>
    by_cases hd : env.detectOk i = false <;>
    by_cases hb : env.buildOk i = false <;>
    simp_all

/-- The page loop returns normally iff every page in the list fully succeeds. -/
theorem runPages_ok_iff (env : Env) (l : List Nat) :
    (runPages env l).2 = true ↔ ∀ i ∈ l, pageOk env i = true := by
  induction l with
  | nil => simp [runPages]
  | cons i rest ih =>
    rw [runPages_ok_cons, Bool.and_eq_true, ih]
    simp [List.forall_mem_cons]

/-- Success flag of the inner page routine in terms of the step flags. -/
theorem processPdfFilePage_ok (env : Env) (i : Nat) :
    (processPdfFilePage env i).2 = (env.renderOk i && env.detectOk i && env.buildOk i) := by
  unfold processPdfFilePage
  repeat' split <;> simp_all

/-- Acquire/release counts in the inner page routine: the page view is released
exactly as often as it is acquired, and no page-handle events occur. -/
theorem processPdfFilePage_count (env : Env) (i j : Nat) :
    (processPdfFilePage env i).1.count (Ev.acquirePageView j) =
      (processPdfFilePage env i).1.count (Ev.releasePageView j) ∧
    (processPdfFilePage env i).1.count (Ev.acquirePage j) = 0 ∧
    (processPdfFilePage env i).1.count (Ev.releasePage j) = 0 := by
  unfold processPdfFilePage
  by_cases hij : i = j <;> repeat' split <;> simp_all [List.count_cons]

/-- Acquire/release counts in the page loop are balanced for both handle kinds. -/
theorem runPages_count (env : Env) (l : List Nat) (j : Nat) :
    (runPages env l).1.count (Ev.acquirePage j) =
      (runPages env l).1.count (Ev.releasePage j) ∧
    (runPages env l).1.count (Ev.acquirePageView j) =
      (runPages env l).1.count (Ev.releasePageView j) := by
  induction l with
  | nil => simp [runPages]
  | cons i rest ih =>
    have hp := processPdfFilePage_count env i j
    simp only [runPages]
    split
    · simp
    · split <;>
        by_cases hij : i = j <;>
        simp_all [List.count_cons, List.count_append]


/-- Environment in which every external step succeeds, over two pages. -/
def envAllOk : Env :=
  { numPages := 2
    acquirePageOk := fun _ => true
    renderOk := fun _ => true
    detectOk := fun _ => true
    buildOk := fun _ => true
    loadTemplateOk := true
    addTagsOk := true
    saveOk := true }

/-- Environment with three pages in which the detector raises on page index 1. -/
def envPageFail : Env :=
  { envAllOk with numPages := 3, detectOk := fun i => !(i == 1) }

/-- Environment with one fully successful page in which `doc.AddTags` fails. -/
def envTagFail : Env :=
  { envAllOk with numPages := 1, addTagsOk := false }

/-! ### C1, C2, C3, C9 -/

/-- C1: if any per-page step of any page fails, `process_file` raises, so the
run never reaches the template-JSON write nor `doc.Save`: the returned flag is
`false` and the trace contains neither a template write nor a PDF save. -/
theorem page_failure_aborts (env : Env)
    (h : ∃ i, i < env.numPages ∧ pageOk env i = false) :
    (processFile env).2 = false ∧
    Ev.writeTemplateFile ∉ (processFile env).1 ∧
    Ev.savePdf ∉ (processFile env).1 := by
  obtain ⟨i, hi, hbad⟩ := h
  have hloop : (runPages env (List.range env.numPages)).2 = false := by
    rcases Bool.eq_false_or_eq_true (runPages env (List.range env.numPages)).2 with ht | hf
    · have := (runPages_ok_iff env (List.range env.numPages)).1 ht i (by simpa using hi)
      simp [this] at hbad
    · exact hf
  have hev := runPages_events env (List.range env.numPages)
  have htr : processFile env = ((runPages env (List.range env.numPages)).1, false) := by
    simp [processFile, hloop]
  rw [htr]
  exact ⟨rfl, fun hmem => (hev _ hmem).1 rfl, fun hmem => (hev _ hmem).2 rfl⟩

/-- Witness for C1: three pages, the detector raising on page index 1; the run
fails, writes no template JSON, and never saves the output PDF. -/
theorem page_failure_aborts_witness :
    ((1 : Nat) < 3 ∧ pageOk envPageFail 1 = false) ∧
    (processFile envPageFail).2 = false ∧
    Ev.writeTemplateFile ∉ (processFile envPageFail).1 ∧
    Ev.savePdf ∉ (processFile envPageFail).1 :=
  ⟨⟨by decide, by decide⟩, page_failure_aborts envPageFail ⟨1, by decide, by decide⟩⟩

/-- C2: in every run, for every page index, the page handle and the page-view
handle are released exactly as often as they are acquired — the `finally`
blocks run on both the success and the error path. -/
theorem handles_always_released (env : Env) (i : Nat) :
    (processFile env).1.count (Ev.acquirePage i) =
      (processFile env).1.count (Ev.releasePage i) ∧
    (processFile env).1.count (Ev.acquirePageView i) =
      (processFile env).1.count (Ev.releasePageView i) := by
  have h := runPages_count env (List.range env.numPages) i
  unfold processFile
  repeat' split <;> simp_all [List.count_append, List.count_cons]

/-- Ordered sequence of page numbers handed to `process_page` (the page templates
appended to the document template), extracted from a trace. -/
def buildSeq (tr : List Ev) : List Nat :=
  tr.filterMap (fun e =>
    match e with
    | Ev.buildPage n => some n
    | _ => none)

/-- The inner page routine appends exactly one page template, carrying
`page_number = page_index + 1`, iff it succeeds. -/
theorem buildSeq_processPdfFilePage (env : Env) (i : Nat) :
    buildSeq (processPdfFilePage env i).1 =
      if (processPdfFilePage env i).2 then [i + 1] else [] := by
  unfold processPdfFilePage
  (repeat' split) <;> simp_all [buildSeq]

/-- The page loop appends page templates for exactly the longest successful
prefix of its index list, in order, each with `page_number = index + 1`. -/
theorem buildSeq_runPages (env : Env) (l : List Nat) :
    buildSeq (runPages env l).1 = (l.takeWhile (pageOk env)).map (fun i => i + 1) := by
  induction l with
  | nil => simp [runPages, buildSeq]
  | cons i rest ih =>
    have hin := buildSeq_processPdfFilePage env i
    have hok := processPdfFilePage_ok env i
    simp only [runPages]
    split
    · have : pageOk env i = false := by simp_all [pageOk]
      simp [buildSeq, List.takeWhile_cons, this]
    · split
      · have : pageOk env i = false := by
          simp_all [pageOk]
        simp only [List.takeWhile_cons, this, if_false, List.map_nil, Bool.false_eq_true]
        simp only [buildSeq, List.filterMap_cons, List.filterMap_append] at hin ⊢
        simp_all
      · have hpage : pageOk env i = true := by
          simp_all [pageOk]
        simp only [List.takeWhile_cons, hpage, if_true, List.map_cons]
        simp only [buildSeq, List.filterMap_cons, List.filterMap_append,
          List.cons_append] at hin ih ⊢
        simp_all

/-- The document-level steps of `process_file` append no page templates. -/
theorem buildSeq_processFile (env : Env) :
    buildSeq (processFile env).1 =
      buildSeq (runPages env (List.range env.numPages)).1 := by
  unfold processFile
  (repeat' split) <;>
    by_cases hb : (runPages env (List.range env.numPages)).2 = false <;>
    simp [buildSeq, List.filterMap_append, hb]

/-- C3: pages are processed in ascending source order and the j-th page template
added to the document template carries `page_number = j + 1`: no gaps, no
duplicates, strictly ascending. -/
theorem pages_added_in_order (env : Env) (j : Nat)
    (h : j < (buildSeq (processFile env).1).length) :
    (buildSeq (processFile env).1)[j] = j + 1 := by
  have heq : buildSeq (processFile env).1 =
      ((List.range env.numPages).takeWhile (pageOk env)).map (fun i => i + 1) := by
    rw [buildSeq_processFile, buildSeq_runPages]
  have h2 : j < (((List.range env.numPages).takeWhile (pageOk env)).map
      (fun i => i + 1)).length := heq ▸ h
  have hpre : (List.range env.numPages).takeWhile (pageOk env) <+: List.range env.numPages :=
    List.takeWhile_prefix _
  have hlen : j < ((List.range env.numPages).takeWhile (pageOk env)).length := by
    simpa using h2
  have hlen2 : j < (List.range env.numPages).length :=
    lt_of_lt_of_le hlen hpre.length_le
  calc (buildSeq (processFile env).1)[j]
      = (((List.range env.numPages).takeWhile (pageOk env)).map
          (fun i => i + 1))[j] := List.getElem_of_eq heq h
    _ = ((List.range env.numPages).takeWhile (pageOk env))[j] + 1 := by
        rw [List.getElem_map]
    _ = (List.range env.numPages)[j] + 1 := by rw [hpre.getElem hlen]
    _ = j + 1 := by rw [List.getElem_range]

/-- Witness for C3: two pages, all steps succeeding; the first added template
carries page number 1. -/
theorem pages_added_in_order_witness :
    (0 : Nat) < (buildSeq (processFile envAllOk).1).length ∧
    (buildSeq (processFile envAllOk).1).get ⟨0, by decide⟩ = 0 + 1 :=
  ⟨by decide, pages_added_in_order envAllOk 0 (by decide)⟩

/-- C9: when every page succeeds but a later document-level step (template load,
tagging, or save) fails, the template JSON file has already been written — the
trace ends with the template write — while the output PDF is never saved. -/
theorem template_json_persists_on_late_failure (env : Env)
    (hpages : ∀ i, i < env.numPages → pageOk env i = true)
    (hfail : env.loadTemplateOk = false ∨ env.addTagsOk = false ∨ env.saveOk = false) :
    (processFile env).2 = false ∧
    (processFile env).1 =
      (runPages env (List.range env.numPages)).1 ++ [Ev.writeTemplateFile] ∧
    Ev.writeTemplateFile ∈ (processFile env).1 ∧
    Ev.savePdf ∉ (processFile env).1 := by
  have hloop : (runPages env (List.range env.numPages)).2 = true :=
    (runPages_ok_iff env (List.range env.numPages)).2
      (fun i hi => hpages i (by simpa using hi))
  have hev := runPages_events env (List.range env.numPages)
  have hnotsave :
      Ev.savePdf ∉ (runPages env (List.range env.numPages)).1 ++ [Ev.writeTemplateFile] := by
    intro hmem
    rcases List.mem_append.mp hmem with hmem | hmem
    · exact (hev _ hmem).2 rfl
    · simp at hmem
  unfold processFile
  rcases hfail with hf | hf | hf <;> simp_all

/-- Witness for C9: one fully successful page, `doc.AddTags` failing; the template
JSON write is in the trace but the PDF save is not. -/
theorem template_json_persists_on_late_failure_witness :
    (∀ i, i < envTagFail.numPages → pageOk envTagFail i = true) ∧
    (processFile envTagFail).2 = false ∧
    Ev.writeTemplateFile ∈ (processFile envTagFail).1 ∧
    Ev.savePdf ∉ (processFile envTagFail).1 := by
  have hp : ∀ i, i < envTagFail.numPages → pageOk envTagFail i = true := by
    intro i hi
    have h1 : envTagFail.numPages = 1 := rfl
    rw [h1] at hi
    have h0 : i = 0 := by omega
    rw [h0]
    decide
  have h := template_json_persists_on_late_failure envTagFail hp
    (Or.inr (Or.inl (by decide)))
  exact ⟨hp, h.1, h.2.2.1, h.2.2.2⟩

/-! ### Page Element Builder cap (spec-modelled) and the orchestrator's constant -/

/-- The per-page cap hard-coded in `process_file` (autotag.py line 74). -/
def max_formulas_and_tables_per_page : Nat := 1000

/-- Modelled from the spec: `build_page` of the Page Element Builder (§4.3), whose
source module (`template_json.py` via `TemplateJsonCreator` / `ai.py`) is not part
of this repository snapshot.  Per the spec, the builder "truncates additional
sub-results deterministically (lowest-priority/last-detected first) and flags the
page as truncated in its metadata rather than failing the whole run".  Sub-results
are opaque to the cap logic, so they are a type parameter. -/
structure BuiltPage (α : Type) where
  subElements : List α
  truncated : Bool

/-- Modelled from the spec: cap enforcement of `build_page` (§4.3): keep the first
`cap` sub-results (dropping last-detected first) and record a truncation flag. -/
def build_page {α : Type} (subResults : List α) (cap : Nat) : BuiltPage α :=
  { subElements := subResults.take cap
    truncated := decide (cap < subResults.length) }

/-- C4: with the orchestrator's configured cap of 1000, a page with 1200 detector
sub-results yields exactly 1000 sub-elements plus a truncation flag — never an
error (`build_page` is total by construction). -/
theorem build_page_cap {α : Type} (subs : List α) (h : subs.length = 1200) :
    (build_page subs max_formulas_and_tables_per_page).subElements.length = 1000 ∧
    (build_page subs max_formulas_and_tables_per_page).truncated = true := by
  constructor
  · simp [build_page, max_formulas_and_tables_per_page, h]
  · simp [build_page, max_formulas_and_tables_per_page, h]

/-- Witness for C4 at a concrete list of 1200 sub-results. -/
theorem build_page_cap_witness :
    (List.replicate 1200 (0 : Nat)).length = 1200 ∧
    (build_page (List.replicate 1200 (0 : Nat))
        max_formulas_and_tables_per_page).subElements.length = 1000 ∧
    (build_page (List.replicate 1200 (0 : Nat))
        max_formulas_and_tables_per_page).truncated = true :=
  ⟨by rw [List.length_replicate], build_page_cap (List.replicate 1200 (0 : Nat))
    (by rw [List.length_replicate])⟩

/-! ### Coordinate Mapper (spec-modelled) -/

/-- Axis-aligned rectangle in rendered-image pixel coordinates, top-left origin. -/
structure PxBBox where
  left : Rat
  top : Rat
  right : Rat
  bottom : Rat

/-- Axis-aligned rectangle in page-space coordinates, bottom-left origin. -/
structure PageRect where
  left : Rat
  bottom : Rat
  right : Rat
  top : Rat

/-- Page rotation, one of the four right angles. -/
inductive PageRotation where
  | r0 : PageRotation
  | r90 : PageRotation
  | r180 : PageRotation
  | r270 : PageRotation

/-- Modelled from the spec: the degenerate-input clamp of the Coordinate Mapper
(§4.1): input with `right <= left` or `bottom <= top` is clamped to a minimum
1-unit extent rather than rejected. -/
def clampPx (b : PxBBox) : PxBBox :=
  { b with
    right := if b.right ≤ b.left then b.left + 1 else b.right
    bottom := if b.bottom ≤ b.top then b.top + 1 else b.bottom }

/-- Modelled from the spec: the Coordinate Mapper `map` (§4.1), whose source module
is not part of this repository snapshot.  It clamps degenerate input, inverts the
zoom scale, swaps the axes for 90 or 270 degree rotation, translates into the crop
box frame, and flips the vertical axis (pixel origin top-left, page origin
bottom-left). -/
def mapBBox (b : PxBBox) (zoom : Rat) (rot : PageRotation) (crop : PageRect) :
    PageRect :=
  let c := clampPx b
  let l := c.left / zoom
  let r := c.right / zoom
  let t := c.top / zoom
  let bo := c.bottom / zoom
  match rot with
  | PageRotation.r0 | PageRotation.r180 =>
    { left := crop.left + l
      right := crop.left + r
      top := crop.top - t
      bottom := crop.top - bo }
  | PageRotation.r90 | PageRotation.r270 =>
    { left := crop.left + t
      right := crop.left + bo
      top := crop.top - l
      bottom := crop.top - r }

theorem clampPx_lt_horiz (b : PxBBox) : (clampPx b).left < (clampPx b).right := by
  unfold clampPx
  dsimp only
  split
  · linarith
  · linarith [not_le.mp (by assumption : ¬ b.right ≤ b.left)]

theorem clampPx_lt_vert (b : PxBBox) : (clampPx b).top < (clampPx b).bottom := by
  unfold clampPx
  dsimp only
  split
  · linarith
  · linarith [not_le.mp (by assumption : ¬ b.bottom ≤ b.top)]

/-- C7: the Coordinate Mapper is total: for every pixel bbox, including degenerate
ones with zero or negative extent, and any rotation and crop box, the resulting
page-space rectangle satisfies `left < right` and `bottom < top`. -/
theorem mapBBox_total (b : PxBBox) (zoom : Rat) (rot : PageRotation)
    (crop : PageRect) (hz : 0 < zoom) :
    (mapBBox b zoom rot crop).left < (mapBBox b zoom rot crop).right ∧
    (mapBBox b zoom rot crop).bottom < (mapBBox b zoom rot crop).top := by
  have hh : (clampPx b).left / zoom < (clampPx b).right / zoom :=
    div_lt_div_of_pos_right (clampPx_lt_horiz b) hz
  have hv : (clampPx b).top / zoom < (clampPx b).bottom / zoom :=
    div_lt_div_of_pos_right (clampPx_lt_vert b) hz
  unfold mapBBox
  cases rot <;> dsimp only <;> constructor <;> linarith

/-- Witness for C7 on a fully degenerate pixel bbox (a point) at zoom 2 with a
90-degree rotation: the mapped rectangle is still well-formed. -/
theorem mapBBox_total_witness :
    (0 : Rat) < 2 ∧
    ((mapBBox ⟨5, 5, 5, 5⟩ 2 PageRotation.r90 ⟨0, 0, 600, 800⟩).left <
      (mapBBox ⟨5, 5, 5, 5⟩ 2 PageRotation.r90 ⟨0, 0, 600, 800⟩).right ∧
     (mapBBox ⟨5, 5, 5, 5⟩ 2 PageRotation.r90 ⟨0, 0, 600, 800⟩).bottom <
      (mapBBox ⟨5, 5, 5, 5⟩ 2 PageRotation.r90 ⟨0, 0, 600, 800⟩).top) :=
  ⟨by norm_num, mapBBox_total ⟨5, 5, 5, 5⟩ 2 PageRotation.r90 ⟨0, 0, 600, 800⟩ (by norm_num)⟩

/-! ### Template Serializer (spec-modelled)

The Template Serializer (§4.5) lives in `template_json.py`, which is not part of
this repository snapshot; the data model and the exchange format are modelled from
the spec (§3 and §6).  The exchange format is embedded as a JSON value tree;
numbers are exact rationals, which JSON values carry without loss. -/

/-- Canonical structural roles (§4.2, §6). -/
inductive Role where
  | heading : Role
  | paragraph : Role
  | table : Role
  | figure : Role
  | formula : Role
  | listRole : Role
  | other : Role
deriving DecidableEq

/-- Role names used by the exchange format (§6). -/
def roleToString : Role → String
  | Role.heading => "Heading"
  | Role.paragraph => "Paragraph"
  | Role.table => "Table"
  | Role.figure => "Figure"
  | Role.formula => "Formula"
  | Role.listRole => "List"
  | Role.other => "Other"

/-- Inverse of `roleToString`; unknown names are rejected. -/
def roleFromString (s : String) : Option Role :=
  if s = "Heading" then some Role.heading
  else if s = "Paragraph" then some Role.paragraph
  else if s = "Table" then some Role.table
  else if s = "Figure" then some Role.figure
  else if s = "Formula" then some Role.formula
  else if s = "List" then some Role.listRole
  else if s = "Other" then some Role.other
  else none

theorem roleFromString_roleToString (r : Role) :
    roleFromString (roleToString r) = some r := by
  cases r <;> rfl

/-- JSON values of the exchange format. -/
inductive Json where
  | null : Json
  | num (q : Rat) : Json
  | str (s : String) : Json
  | arr (elems : List Json) : Json
  | obj (fields : List (String × Json)) : Json

/-- Modelled from the spec: `PageElement` (§3): role, page-space bbox, optional
style hint, reading-order index, and nested children. -/
inductive PageElement where
  | mk (role : Role) (left bottom right top : Rat) (style_hint : Option String)
      (order_index : Nat) (children : List PageElement)

/-- Modelled from the spec: `PageTemplate` (§3). -/
structure PageTemplate where
  page_number : Nat
  elements : List PageElement

/-- Modelled from the spec: `DocumentTemplate` (§3): provenance metadata and the
ordered page list. -/
structure DocumentTemplate where
  model : String
  zoom : Rat
  pages : List PageTemplate

/-- Encoding of the optional style hint (`<string|null>` in §6). -/
def styleToJson : Option String → Json
  | none => Json.null
  | some s => Json.str s

/-- Decoding of the optional style hint. -/
def styleFromJson : Json → Option (Option String)
  | Json.null => some none
  | Json.str s => some (some s)
  | _ => none

theorem styleFromJson_styleToJson (sh : Option String) :
    styleFromJson (styleToJson sh) = some sh := by
  cases sh <;> rfl

/-- Decoding of a non-negative integer JSON number. -/
def natFromJson : Json → Option Nat
  | Json.num q => if q.den = 1 ∧ 0 ≤ q.num then some q.num.toNat else none
  | _ => none

theorem natFromJson_natCast (n : Nat) : natFromJson (Json.num (n : Rat)) = some n := by
  simp [natFromJson]

/-- Serialization of one page element to the element shape of §6. -/
def serializeElem : PageElement → Json
  | PageElement.mk r l b rt t sh oi cs =>
    Json.obj [("role", Json.str (roleToString r)),
      ("bbox", Json.arr [Json.num l, Json.num b, Json.num rt, Json.num t]),
      ("style_hint", styleToJson sh),
      ("order_index", Json.num (oi : Rat)),
      ("children", Json.arr (cs.attach.map (fun c => serializeElem c.1)))]
termination_by e => sizeOf e
decreasing_by
  have h := List.sizeOf_lt_of_mem c.2
  simp only [PageElement.mk.sizeOf_spec]
  omega

mutual

/-- Deserialization of one page element from the element shape of §6. -/
def deserializeElem : Json → Option PageElement
  | Json.obj [("role", Json.str rs),
      ("bbox", Json.arr [Json.num l, Json.num b, Json.num rt, Json.num t]),
      ("style_hint", shj), ("order_index", oij), ("children", Json.arr cs)] =>
    match roleFromString rs, styleFromJson shj, natFromJson oij,
        deserializeElems cs with
    | some r, some sh, some oi, some children =>
      some (PageElement.mk r l b rt t sh oi children)
    | _, _, _, _ => none
  | _ => none

/-- Deserialization of a list of page elements. -/
def deserializeElems : List Json → Option (List PageElement)
  | [] => some []
  | j :: js =>
    match deserializeElem j, deserializeElems js with
    | some e, some es => some (e :: es)
    | _, _ => none

end

/-- Element-list round-trip, given the round-trip for each member. -/
theorem deserializeElems_map (cs : List PageElement)
    (ih : ∀ c ∈ cs, deserializeElem (serializeElem c) = some c) :
    deserializeElems (cs.map serializeElem) = some cs := by
  induction cs with
  | nil => simp [deserializeElems]
  | cons hd tl iht =>
    have h1 := ih hd (by simp)
    have h2 := iht (fun c hc => ih c (by simp [hc]))
    simp [deserializeElems, h1, h2]

/-- Element round-trip: deserializing a serialized page element recovers it. -/
theorem deser_ser_elem : ∀ e : PageElement, deserializeElem (serializeElem e) = some e
  | PageElement.mk r l b rt t sh oi cs => by
    have ih : ∀ c ∈ cs, deserializeElem (serializeElem c) = some c :=
      fun c hc => deser_ser_elem c
    have hlist : deserializeElems (cs.map serializeElem) = some cs :=
      deserializeElems_map cs ih
    simp only [serializeElem, List.attach_map_coe]
    simp [deserializeElem, hlist, roleFromString_roleToString,
      styleFromJson_styleToJson, natFromJson_natCast]
termination_by e => sizeOf e
decreasing_by
  have h := List.sizeOf_lt_of_mem hc
  simp only [PageElement.mk.sizeOf_spec]
  omega

/-- Serialization of one page template to the page shape of §6. -/
def serializePage (p : PageTemplate) : Json :=
  Json.obj [("page_number", Json.num (p.page_number : Rat)),
    ("elements", Json.arr (p.elements.map serializeElem))]

/-- Deserialization of one page template. -/
def deserializePage : Json → Option PageTemplate
  | Json.obj [("page_number", pnj), ("elements", Json.arr es)] =>
    match natFromJson pnj, deserializeElems es with
    | some n, some elems => some { page_number := n, elements := elems }
    | _, _ => none
  | _ => none

theorem deserializePage_serializePage (p : PageTemplate) :
    deserializePage (serializePage p) = some p := by
  have hlist : deserializeElems (p.elements.map serializeElem) = some p.elements :=
    deserializeElems_map p.elements (fun c hc => deser_ser_elem c)
  simp [serializePage, deserializePage, natFromJson_natCast, hlist]

/-- Deserialization of the page list. -/
def deserializePages : List Json → Option (List PageTemplate)
  | [] => some []
  | j :: js =>
    match deserializePage j, deserializePages js with
    | some p, some ps => some (p :: ps)
    | _, _ => none

theorem deserializePages_map (ps : List PageTemplate) :
    deserializePages (ps.map serializePage) = some ps := by
  induction ps with
  | nil => simp [deserializePages]
  | cons hd tl iht =>
    simp [deserializePages, deserializePage_serializePage, iht]

/-- Modelled from the spec: `serialize` of the Template Serializer (§4.5, §6). -/
def serialize (t : DocumentTemplate) : Json :=
  Json.obj [("model", Json.str t.model), ("zoom", Json.num t.zoom),
    ("pages", Json.arr (t.pages.map serializePage))]

/-- Modelled from the spec: `deserialize` of the Template Serializer (§4.5, §6). -/
def deserialize : Json → Option DocumentTemplate
  | Json.obj [("model", Json.str m), ("zoom", Json.num z), ("pages", Json.arr ps)] =>
    match deserializePages ps with
    | some pages => some { model := m, zoom := z, pages := pages }
    | none => none
  | _ => none

/-- C6: the serializer round-trips: for every document template `t`,
`deserialize (serialize t) = some t`. -/
theorem deserialize_serialize (t : DocumentTemplate) :
    deserialize (serialize t) = some t := by
  simp [serialize, deserialize, deserializePages_map]

end Autotag
